import Mathlib

/-
  Verification of the avatar lifecycle coordinator of Gainly_Avatars.

  The coordinator (`AvatarService` in internal/services) drives three
  external stores: the R2 blob store, the Redis metadata store
  (id -> metadata) and the Redis ownership mapping (username -> id).
  We embed the stores as explicit state, model each outbound call with a
  per-call fault-injection flag, and record an event for every call the
  coordinator issues, so that claims about "exactly one write", "no
  deletes" and compensation order are statable.  The `uuid.New()` call is
  modelled by passing the generated id as a parameter, and `time.Now()`
  by a clock parameter.
-/

namespace GainlyAvatars

/-- Metadata record stored under key `avatar:<guid>` (clients.AvatarMetadata). -/
structure AvatarMetadata where
  guid : String
  username : String
  filename : String
  size : Int
  mimeType : String
  uploadedAt : Nat
deriving DecidableEq, Repr

/-- Error values, one constructor per distinct `fmt.Errorf` site reachable
from the coordinator operations under study. -/
inductive AvatarErr where
  /-- "failed to upload avatar: %w" (AddAvatar) -/
  | uploadFailed
  /-- "failed to save metadata: %w" (AddAvatar) -/
  | metadataSaveFailed
  /-- "failed to save username mapping: %w" (AddAvatar) -/
  | mappingSaveFailed
  /-- "username not found: %s" (RedisClient.GetGUIDByUsername, redis.Nil) -/
  | usernameNotFound (username : String)
  /-- "failed to get guid by username: %w" (RedisClient.GetGUIDByUsername) -/
  | guidLookupFailed
  /-- "avatar not found for username: %s" (DeleteMyAvatar lookup wrapper) -/
  | avatarNotFound (username : String)
  /-- "failed to delete avatar from R2: %w" (DeleteMyAvatar) -/
  | blobDeleteFailed
  /-- "failed to generate avatar URL: %w" (GetAvatarByUsername) -/
  | urlGenFailed
deriving DecidableEq, Repr

/-- One event per outbound store call issued by the coordinator (recorded
whether or not the call succeeds). -/
inductive Event where
  | blobWrite (id : String)
  | metaWrite (id : String)
  | mapWrite (owner : String) (id : String)
  | blobDelete (id : String)
  | metaDelete (id : String)
  | mapDelete (owner : String)
deriving DecidableEq, Repr

/-- Joint state of the three external stores. -/
structure Store where
  /-- ids whose blob `avatars/<id>` exists in R2 -/
  blobs : List String
  /-- redis keys `avatar:<id>` -> metadata record -/
  metas : List (String × AvatarMetadata)
  /-- redis keys `username:<owner>` -> avatar id -/
  mapping : List (String × String)
deriving DecidableEq, Repr

/-- Fault injection: one flag per outbound primitive; lookups and presigning
fail per key. -/
structure Faults where
  uploadAvatarFails : Bool
  setAvatarMetadataFails : Bool
  setGUIDByUsernameFails : Bool
  deleteAvatarFails : Bool
  deleteAvatarMetadataFails : Bool
  deleteUsernameMappingFails : Bool
  getGUIDByUsernameFails : String → Bool
  presignFails : String → Bool

/-- Result of a coordinator operation: returned value or error, final store
state, the trace of outbound calls, and the lines printed to the log. -/
structure OpResult (α : Type) where
  result : Except AvatarErr α
  store : Store
  events : List Event
  logs : List String

/-- First-match lookup in an association list (Go map read). -/
def lookupAssoc {α : Type} : List (String × α) → String → Option α
  | [], _ => none
  | p :: rest, k => if p.1 = k then some p.2 else lookupAssoc rest k

/-- Insert-or-replace in an association list (Go map assignment / redis SET). -/
def insertAssoc {α : Type} (l : List (String × α)) (k : String) (v : α) :
    List (String × α) :=
  if l.any (fun p => p.1 = k) then
    l.map (fun p => if p.1 = k then (k, v) else p)
  else
    l ++ [(k, v)]

/-- Remove every entry with the given key (redis DEL). -/
def eraseKey {α : Type} (l : List (String × α)) (k : String) : List (String × α) :=
  l.filter (fun p => p.1 ≠ k)

/- ---------- Store primitives (R2Client / RedisClient) ---------- -/

/-- R2Client.UploadAvatar: PutObject under `avatars/<guid>`; overwrites. -/
def r2UploadAvatar (f : Faults) (guid : String) (st : Store) : Bool × Store :=
  if f.uploadAvatarFails then (false, st)
  else (true, { st with blobs := if guid ∈ st.blobs then st.blobs else st.blobs ++ [guid] })

/-- R2Client.DeleteAvatar: DeleteObject of `avatars/<guid>`. -/
def r2DeleteAvatar (f : Faults) (guid : String) (st : Store) : Bool × Store :=
  if f.deleteAvatarFails then (false, st)
  else (true, { st with blobs := st.blobs.filter (fun b => b ≠ guid) })

/-- Opaque presigned URL the AWS presign client returns for `avatars/<guid>`. -/
def presignedURL (guid : String) : String :=
  "presigned:avatars/" ++ guid

/-- R2Client.GetAvatarPresignedURL (read-only; failure injected per id). -/
def r2GetAvatarPresignedURL (f : Faults) (guid : String) : Except AvatarErr String :=
  if f.presignFails guid then .error .urlGenFailed
  else .ok (presignedURL guid)

/-- RedisClient.GetGUIDByUsername: GET `username:<u>`; redis.Nil becomes
`usernameNotFound`, any other redis error becomes `guidLookupFailed`. -/
def redisGetGUIDByUsername (f : Faults) (username : String) (st : Store) :
    Except AvatarErr String :=
  if f.getGUIDByUsernameFails username then .error .guidLookupFailed
  else
    match lookupAssoc st.mapping username with
    | none => .error (.usernameNotFound username)
    | some guid => .ok guid

/-- RedisClient.SetGUIDByUsername: SET `username:<u>` = guid. -/
def redisSetGUIDByUsername (f : Faults) (username guid : String) (st : Store) :
    Bool × Store :=
  if f.setGUIDByUsernameFails then (false, st)
  else (true, { st with mapping := insertAssoc st.mapping username guid })

/-- RedisClient.SetAvatarMetadata: SET `avatar:<guid>` = record. -/
def redisSetAvatarMetadata (f : Faults) (metadata : AvatarMetadata) (st : Store) :
    Bool × Store :=
  if f.setAvatarMetadataFails then (false, st)
  else (true, { st with metas := insertAssoc st.metas metadata.guid metadata })

/-- RedisClient.DeleteAvatarMetadata: DEL `avatar:<guid>`. -/
def redisDeleteAvatarMetadata (f : Faults) (guid : String) (st : Store) :
    Bool × Store :=
  if f.deleteAvatarMetadataFails then (false, st)
  else (true, { st with metas := eraseKey st.metas guid })

/-- RedisClient.DeleteUsernameMapping: DEL `username:<u>`. -/
def redisDeleteUsernameMapping (f : Faults) (username : String) (st : Store) :
    Bool × Store :=
  if f.deleteUsernameMappingFails then (false, st)
  else (true, { st with mapping := eraseKey st.mapping username })

/- ---------- AvatarService (the coordinator) ---------- -/

/-- AvatarService.AddAvatar.  `guid` stands for the value of `uuid.New()`,
`now` for `time.Now()`.  Mirrors the Go control flow: upload, then metadata
write (on failure: compensating blob delete, its error discarded by `_ =`),
then mapping write (on failure: compensating metadata delete then blob
delete, both errors discarded). -/
def addAvatar (f : Faults) (now : Nat) (username guid filename contentType : String)
    (size : Int) (st : Store) : OpResult String :=
  let up := r2UploadAvatar f guid st
  if up.1 then
    let metadata : AvatarMetadata :=
      { guid := guid, username := username, filename := filename,
        size := size, mimeType := contentType, uploadedAt := now }
    let sm := redisSetAvatarMetadata f metadata up.2
    if sm.1 then
      let sg := redisSetGUIDByUsername f username guid sm.2
      if sg.1 then
        { result := .ok guid, store := sg.2,
          events := [.blobWrite guid, .metaWrite guid, .mapWrite username guid],
          logs := [] }
      else
        let dm := redisDeleteAvatarMetadata f guid sg.2
        let db := r2DeleteAvatar f guid dm.2
        { result := .error .mappingSaveFailed, store := db.2,
          events := [.blobWrite guid, .metaWrite guid, .mapWrite username guid,
                     .metaDelete guid, .blobDelete guid],
          logs := [] }
    else
      let db := r2DeleteAvatar f guid sm.2
      { result := .error .metadataSaveFailed, store := db.2,
        events := [.blobWrite guid, .metaWrite guid, .blobDelete guid],
        logs := [] }
  else
    { result := .error .uploadFailed, store := up.2,
      events := [.blobWrite guid], logs := [] }

/-- AvatarService.GetAvatarByUsername (read-only): lookup, then presigned URL. -/
def getAvatarByUsername (f : Faults) (username : String) (st : Store) :
    Except AvatarErr String :=
  match redisGetGUIDByUsername f username st with
  | .error e => .error e
  | .ok guid =>
    match r2GetAvatarPresignedURL f guid with
    | .error _ => .error .urlGenFailed
    | .ok url => .ok url

/-- The loop body of RedisClient.GetGUIDsByUsernames: usernames whose lookup
fails (absent or store error) are skipped. -/
def guidsLoop (f : Faults) (st : Store) (acc : List (String × String)) :
    List String → List (String × String)
  | [] => acc
  | username :: rest =>
    match redisGetGUIDByUsername f username st with
    | .error _ => guidsLoop f st acc rest
    | .ok guid => guidsLoop f st (insertAssoc acc username guid) rest

/-- RedisClient.GetGUIDsByUsernames: always returns nil error. -/
def redisGetGUIDsByUsernames (f : Faults) (usernames : List String) (st : Store) :
    Except AvatarErr (List (String × String)) :=
  .ok (guidsLoop f st [] usernames)

/-- The loop body of AvatarService.GetAvatarsByUsernames: URL-generation
failures are skipped. -/
def urlLoop (f : Faults) (acc : List (String × String)) :
    List (String × String) → List (String × String)
  | [] => acc
  | (username, guid) :: rest =>
    match r2GetAvatarPresignedURL f guid with
    | .error _ => urlLoop f acc rest
    | .ok url => urlLoop f (insertAssoc acc username url) rest

/-- AvatarService.GetAvatarsByUsernames. -/
def getAvatarsByUsernames (f : Faults) (usernames : List String) (st : Store) :
    Except AvatarErr (List (String × String)) :=
  match redisGetGUIDsByUsernames f usernames st with
  | .error e => .error e
  | .ok guidMap => .ok (urlLoop f [] guidMap)

/-- AvatarService.DeleteMyAvatar.  Any lookup error is wrapped into
"avatar not found for username: %s"; blob delete failure aborts; metadata and
mapping delete failures are logged as warnings but do not change the result. -/
def deleteMyAvatar (f : Faults) (username : String) (st : Store) : OpResult Unit :=
  match redisGetGUIDByUsername f username st with
  | .error _ =>
    { result := .error (.avatarNotFound username), store := st, events := [], logs := [] }
  | .ok guid =>
    let db := r2DeleteAvatar f guid st
    if db.1 then
      let dm := redisDeleteAvatarMetadata f guid db.2
      let logs1 := if dm.1 then [] else ["warning: failed to delete metadata"]
      let du := redisDeleteUsernameMapping f username dm.2
      let logs2 := if du.1 then [] else ["warning: failed to delete username mapping"]
      { result := .ok (), store := du.2,
        events := [.blobDelete guid, .metaDelete guid, .mapDelete username],
        logs := logs1 ++ logs2 }
    else
      { result := .error .blobDeleteFailed, store := db.2,
        events := [.blobDelete guid], logs := [] }

/- ---------- HTTP boundary (Handlers.GetAvatarsByUsernames) ---------- -/

/-- Response written by the handler layer. -/
inductive HttpResp where
  | errorResp (code : Nat) (msg : String)
  | jsonMap (code : Nat) (body : List (String × String))
deriving DecidableEq, Repr

/-- Rendering of coordinator errors via `err.Error()` at the boundary. -/
def errMsg : AvatarErr → String
  | .uploadFailed => "failed to upload avatar"
  | .metadataSaveFailed => "failed to save metadata"
  | .mappingSaveFailed => "failed to save username mapping"
  | .usernameNotFound u => "username not found: " ++ u
  | .guidLookupFailed => "failed to get guid by username"
  | .avatarNotFound u => "avatar not found for username: " ++ u
  | .blobDeleteFailed => "failed to delete avatar from R2"
  | .urlGenFailed => "failed to generate avatar URL"

/-- Handlers.GetAvatarsByUsernames.  `body` is the decoded request: `none`
models a JSON decode failure, `some us` the decoded usernames list.  The
empty list is rejected with 400 before the service is called. -/
def handlersGetAvatarsByUsernames (f : Faults) (st : Store)
    (body : Option (List String)) : HttpResp :=
  match body with
  | none => .errorResp 400 "Invalid request body"
  | some usernames =>
    if usernames.length = 0 then
      .errorResp 400 "Usernames list cannot be empty"
    else
      match getAvatarsByUsernames f usernames st with
      | .error e => .errorResp 500 (errMsg e)
      | .ok avatars => .jsonMap 200 avatars

/-- Entry the spec promises in the GetManyByOwners result, in the words of the spec: an owner is present exactly when it was requested, its mapping lookup
succeeds, and URL generation for the resolved id succeeds. -/
def specEntryGetMany (f : Faults) (usernames : List String) (st : Store)
    (u : String) : Option String :=
  if u ∈ usernames ∧ f.getGUIDByUsernameFails u = false then
    match lookupAssoc st.mapping u with
    | none => none
    | some guid => if f.presignFails guid then none else some (presignedURL guid)
  else none

/- ---------- Sample inputs used by witnesses ---------- -/

/-- Fault assignment where every call succeeds. -/
def noFaults : Faults :=
  { uploadAvatarFails := false, setAvatarMetadataFails := false,
    setGUIDByUsernameFails := false, deleteAvatarFails := false,
    deleteAvatarMetadataFails := false, deleteUsernameMappingFails := false,
    getGUIDByUsernameFails := fun _ => false, presignFails := fun _ => false }

/-- Empty joint store. -/
def emptyStore : Store := { blobs := [], metas := [], mapping := [] }

/- ---------- Association list lemmas ---------- -/

/-- Deleting a key makes lookup of that key return none. -/
theorem lookupAssoc_eraseKey_self {α : Type} (l : List (String × α)) (k : String) :
    lookupAssoc (eraseKey l k) k = none := by
  induction l with
  | nil => rfl
  | cons p rest ih =>
    by_cases h : p.1 = k
    · simpa [eraseKey, h] using ih
    · simpa [eraseKey, lookupAssoc, h] using ih

/-- Replacing the value at key `k` leaves lookups of other keys unchanged. -/
theorem lookupAssoc_mapReplace_ne {α : Type} (l : List (String × α)) (k u : String)
    (v : α) (h : k ≠ u) :
    lookupAssoc (l.map fun q => if q.1 = k then (k, v) else q) u = lookupAssoc l u := by
  induction l with
  | nil => rfl
  | cons p rest ih =>
    by_cases hp : p.1 = k
    · simp [lookupAssoc, hp, h, Ne.symm h, ih]
    · by_cases hu : p.1 = u <;> simp [lookupAssoc, hp, hu, Ne.symm h, ih]

/-- If some entry has key `k`, replacing at `k` makes lookup of `k` return the
new value. -/
theorem lookupAssoc_mapReplace_self {α : Type} (l : List (String × α)) (k : String)
    (v : α) (h : ∃ q ∈ l, q.1 = k) :
    lookupAssoc (l.map fun q => if q.1 = k then (k, v) else q) k = some v := by
  induction l with
  | nil =>
    obtain ⟨q, hq, _⟩ := h
    cases hq
  | cons p rest ih =>
    by_cases hp : p.1 = k
    · simp [lookupAssoc, hp]
    · obtain ⟨q, hq, hqk⟩ := h
      rcases List.mem_cons.mp hq with rfl | hq2
      · exact absurd hqk hp
      · simpa [lookupAssoc, hp] using ih ⟨q, hq2, hqk⟩

/-- Appending a fresh entry: lookup of its key finds it, others unchanged. -/
theorem lookupAssoc_append_single {α : Type} (l : List (String × α)) (k u : String)
    (v : α) (h : ∀ q ∈ l, q.1 ≠ k) :
    lookupAssoc (l ++ [(k, v)]) u = if k = u then some v else lookupAssoc l u := by
  induction l with
  | nil => simp [lookupAssoc]
  | cons p rest ih =>
    by_cases hu : p.1 = u
    · have hku : k ≠ u := fun he =>
        h p (List.mem_cons_self p rest) (by rw [hu, ← he])
      simp [lookupAssoc, hu, hku]
    · simpa [lookupAssoc, hu] using ih (fun q hq => h q (List.mem_cons_of_mem p hq))

/-- Lookup after a Go-map style insert-or-replace. -/
theorem lookupAssoc_insertAssoc {α : Type} (l : List (String × α)) (k u : String)
    (v : α) :
    lookupAssoc (insertAssoc l k v) u = if k = u then some v else lookupAssoc l u := by
  by_cases hany : (l.any fun q => q.1 = k) = true
  · have hex : ∃ q ∈ l, q.1 = k := by simpa using hany
    simp only [insertAssoc, hany, if_true]
    by_cases hku : k = u
    · subst hku
      rw [if_pos rfl]
      exact lookupAssoc_mapReplace_self l k v hex
    · rw [if_neg hku]
      exact lookupAssoc_mapReplace_ne l k u v hku
  · have hb : (l.any fun q => q.1 = k) = false := Bool.eq_false_iff.mpr hany
    have hall : ∀ q ∈ l, q.1 ≠ k := by
      intro q hq hqk
      exact hany (List.any_eq_true.mpr ⟨q, hq, by simpa using hqk⟩)
    simp only [insertAssoc, hb, if_false, Bool.false_eq_true]
    exact lookupAssoc_append_single l k u v hall

/-- A successful lookup names an entry of the list. -/
theorem lookupAssoc_mem {α : Type} {l : List (String × α)} {k : String} {x : α}
    (h : lookupAssoc l k = some x) : (k, x) ∈ l := by
  induction l with
  | nil => cases h
  | cons p rest ih =>
    by_cases hp : p.1 = k
    · simp [lookupAssoc, hp] at h
      have : p = (k, x) := Prod.ext hp h
      rw [← this]
      exact List.mem_cons_self p rest
    · simp [lookupAssoc, hp] at h
      exact List.mem_cons_of_mem p (ih h)

/-- Every entry of an insert-or-replace is the inserted pair or an original. -/
theorem mem_insertAssoc {α : Type} {l : List (String × α)} {k : String} {v : α}
    {p : String × α} (h : p ∈ insertAssoc l k v) : p = (k, v) ∨ p ∈ l := by
  unfold insertAssoc at h
  split at h
  · obtain ⟨q, hq, he⟩ := List.mem_map.mp h
    by_cases hk : q.1 = k
    · left
      rw [← he]
      simp [hk]
    · right
      rw [← he]
      simpa [hk] using hq
  · rcases List.mem_append.mp h with h1 | h1
    · right
      exact h1
    · left
      simpa using h1

/-- Every entry the lookup loop accumulates comes from a successful lookup. -/
theorem guidsLoop_mem (f : Faults) (st : Store) (us : List String)
    (acc : List (String × String))
    (hacc : ∀ p ∈ acc, redisGetGUIDByUsername f p.1 st = .ok p.2) :
    ∀ p ∈ guidsLoop f st acc us, redisGetGUIDByUsername f p.1 st = .ok p.2 := by
  induction us generalizing acc with
  | nil => simpa [guidsLoop] using hacc
  | cons u rest ih =>
    cases hr : redisGetGUIDByUsername f u st with
    | error e => simpa [guidsLoop, hr] using ih acc hacc
    | ok g =>
      simp only [guidsLoop, hr]
      refine ih _ ?_
      intro p hp
      rcases mem_insertAssoc hp with he | hm
      · rw [he]
        exact hr
      · exact hacc p hm

/-- Lookup in the accumulated guid map, when the redis lookup of `u` succeeds
with `g`: present with value `g` exactly when `u` was requested. -/
theorem guidsLoop_lookup_ok (f : Faults) (st : Store) (us : List String)
    (acc : List (String × String)) (u g : String)
    (hr : redisGetGUIDByUsername f u st = .ok g) :
    lookupAssoc (guidsLoop f st acc us) u =
      if u ∈ us then some g else lookupAssoc acc u := by
  induction us generalizing acc with
  | nil => simp [guidsLoop]
  | cons v rest ih =>
    by_cases hv : v = u
    · subst hv
      simp only [guidsLoop, hr]
      rw [ih]
      by_cases hin : v ∈ rest
      · simp [hin]
      · simp [hin, lookupAssoc_insertAssoc]
    · have hv2 : ¬(u = v) := fun h => hv h.symm
      cases hrv : redisGetGUIDByUsername f v st with
      | error e =>
        simp only [guidsLoop, hrv]
        rw [ih]
        simp [List.mem_cons, hv2]
      | ok gv =>
        simp only [guidsLoop, hrv]
        rw [ih]
        simp [List.mem_cons, hv2, lookupAssoc_insertAssoc, hv]

/-- Lookup in the accumulated guid map, when the redis lookup of `u` fails:
the loop never adds an entry for `u`. -/
theorem guidsLoop_lookup_error (f : Faults) (st : Store) (us : List String)
    (acc : List (String × String)) (u : String) (e : AvatarErr)
    (hr : redisGetGUIDByUsername f u st = .error e) :
    lookupAssoc (guidsLoop f st acc us) u = lookupAssoc acc u := by
  induction us generalizing acc with
  | nil => simp [guidsLoop]
  | cons v rest ih =>
    cases hrv : redisGetGUIDByUsername f v st with
    | error e2 =>
      simp only [guidsLoop, hrv]
      exact ih acc
    | ok gv =>
      simp only [guidsLoop, hrv]
      rw [ih]
      have hvu : v ≠ u := by
        intro he
        rw [he, hr] at hrv
        cases hrv
      simp [lookupAssoc_insertAssoc, hvu]

/-- Lookup in the URL map built by the presign loop, given that every input
entry records a successful redis lookup (so duplicate keys agree). -/
theorem urlLoop_lookup (f : Faults) (st : Store)
    (pairs acc : List (String × String)) (u : String)
    (hdet : ∀ p ∈ pairs, redisGetGUIDByUsername f p.1 st = .ok p.2) :
    lookupAssoc (urlLoop f acc pairs) u =
      match lookupAssoc pairs u with
      | none => lookupAssoc acc u
      | some g => if f.presignFails g then lookupAssoc acc u
                  else some (presignedURL g) := by
  induction pairs generalizing acc with
  | nil => simp [urlLoop, lookupAssoc]
  | cons p rest ih =>
    obtain ⟨v, g0⟩ := p
    have hdr : ∀ q ∈ rest, redisGetGUIDByUsername f q.1 st = .ok q.2 :=
      fun q hq => hdet q (List.mem_cons_of_mem _ hq)
    have hdv : redisGetGUIDByUsername f v st = .ok g0 :=
      hdet (v, g0) (List.mem_cons_self _ _)
    have hsame : ∀ g1, lookupAssoc rest v = some g1 → g1 = g0 := by
      intro g1 h1
      have := hdr (v, g1) (lookupAssoc_mem h1)
      rw [hdv] at this
      exact (Except.ok.injEq _ _ ▸ this).symm
    cases hp : f.presignFails g0 with
    | true =>
      have hcall : r2GetAvatarPresignedURL f g0 = .error .urlGenFailed := by
        simp [r2GetAvatarPresignedURL, hp]
      simp only [urlLoop, hcall]
      rw [ih acc hdr]
      by_cases hvu : v = u
      · subst hvu
        cases hrest : lookupAssoc rest v with
        | none => simp [lookupAssoc, hp]
        | some g1 =>
          have hg := hsame g1 hrest
          subst hg
          simp [lookupAssoc, hp]
      · simp [lookupAssoc, hvu]
    | false =>
      have hcall : r2GetAvatarPresignedURL f g0 = .ok (presignedURL g0) := by
        simp [r2GetAvatarPresignedURL, hp]
      simp only [urlLoop, hcall]
      rw [ih _ hdr]
      by_cases hvu : v = u
      · subst hvu
        cases hrest : lookupAssoc rest v with
        | none => simp [lookupAssoc, hp, lookupAssoc_insertAssoc]
        | some g1 =>
          have hg := hsame g1 hrest
          subst hg
          simp [lookupAssoc, hp]
      · cases hrest : lookupAssoc rest u with
        | none => simp [lookupAssoc, hvu, lookupAssoc_insertAssoc, hrest]
        | some g1 =>
          cases hp1 : f.presignFails g1 <;>
            simp [lookupAssoc, hvu, lookupAssoc_insertAssoc, hrest, hp1]

/- ---------- Claim theorems ---------- -/

/-- C1: AddAvatar returns the generated id (and no error) iff the blob write,
the metadata write, and the owner-to-id mapping write all succeed; on such a
success the event trace is exactly one blob write, one metadata write and one
mapping write, with no deletes. -/
theorem addAvatar_success_iff (f : Faults) (now : Nat)
    (username guid filename contentType : String) (size : Int) (st : Store) :
    ((addAvatar f now username guid filename contentType size st).result = .ok guid ↔
      (f.uploadAvatarFails = false ∧ f.setAvatarMetadataFails = false ∧
        f.setGUIDByUsernameFails = false)) ∧
    (f.uploadAvatarFails = false → f.setAvatarMetadataFails = false →
      f.setGUIDByUsernameFails = false →
      (addAvatar f now username guid filename contentType size st).events =
        [.blobWrite guid, .metaWrite guid, .mapWrite username guid]) := by
  cases h1 : f.uploadAvatarFails <;>
  cases h2 : f.setAvatarMetadataFails <;>
  cases h3 : f.setGUIDByUsernameFails <;>
    simp [addAvatar, r2UploadAvatar, redisSetAvatarMetadata, redisSetGUIDByUsername,
      h1, h2, h3]

/-- C1 witness: with no injected fault, a concrete AddAvatar run returns the
generated id and the expected three-write trace. -/
theorem addAvatar_success_iff_witness :
    (addAvatar noFaults 0 "alice" "g1" "pic.jpg" "image/jpeg" 10 emptyStore).result =
      .ok "g1" ∧
    (addAvatar noFaults 0 "alice" "g1" "pic.jpg" "image/jpeg" 10 emptyStore).events =
      [.blobWrite "g1", .metaWrite "g1", .mapWrite "alice" "g1"] :=
  ⟨(addAvatar_success_iff noFaults 0 "alice" "g1" "pic.jpg" "image/jpeg" 10
      emptyStore).1.mpr ⟨rfl, rfl, rfl⟩,
   (addAvatar_success_iff noFaults 0 "alice" "g1" "pic.jpg" "image/jpeg" 10
      emptyStore).2 rfl rfl rfl⟩

/-- C2: if the metadata write fails after a successful blob write, AddAvatar
issues a compensating blob delete for the generated id and returns an error;
with the delete behaving normally, the blob for that id is absent afterwards. -/
theorem addAvatar_metaFail_compensates (f : Faults) (now : Nat)
    (username guid filename contentType : String) (size : Int) (st : Store)
    (h1 : f.uploadAvatarFails = false) (h2 : f.setAvatarMetadataFails = true) :
    (addAvatar f now username guid filename contentType size st).result =
      .error .metadataSaveFailed ∧
    (addAvatar f now username guid filename contentType size st).events =
      [.blobWrite guid, .metaWrite guid, .blobDelete guid] ∧
    (f.deleteAvatarFails = false →
      guid ∉ (addAvatar f now username guid filename contentType size st).store.blobs) := by
  refine ⟨?_, ?_, ?_⟩ <;>
    simp [addAvatar, r2UploadAvatar, redisSetAvatarMetadata, h1, h2]
  intro hd
  simp [r2DeleteAvatar, hd, List.mem_filter]

/-- C2 witness: concrete run with only the metadata write failing. -/
theorem addAvatar_metaFail_compensates_witness :
    (addAvatar { noFaults with setAvatarMetadataFails := true }
        0 "alice" "g1" "pic.jpg" "image/jpeg" 10 emptyStore).result =
      .error .metadataSaveFailed ∧
    "g1" ∉ (addAvatar { noFaults with setAvatarMetadataFails := true }
        0 "alice" "g1" "pic.jpg" "image/jpeg" 10 emptyStore).store.blobs :=
  ⟨(addAvatar_metaFail_compensates { noFaults with setAvatarMetadataFails := true }
      0 "alice" "g1" "pic.jpg" "image/jpeg" 10 emptyStore rfl rfl).1,
   (addAvatar_metaFail_compensates { noFaults with setAvatarMetadataFails := true }
      0 "alice" "g1" "pic.jpg" "image/jpeg" 10 emptyStore rfl rfl).2.2 rfl⟩

/-- C3: if the mapping write fails after successful blob and metadata writes,
AddAvatar deletes the metadata record and then the blob for the generated id
and returns an error; with the deletes behaving normally, neither the blob
nor the metadata record for that id exists afterwards. -/
theorem addAvatar_mapFail_compensates (f : Faults) (now : Nat)
    (username guid filename contentType : String) (size : Int) (st : Store)
    (h1 : f.uploadAvatarFails = false) (h2 : f.setAvatarMetadataFails = false)
    (h3 : f.setGUIDByUsernameFails = true) :
    (addAvatar f now username guid filename contentType size st).result =
      .error .mappingSaveFailed ∧
    (addAvatar f now username guid filename contentType size st).events =
      [.blobWrite guid, .metaWrite guid, .mapWrite username guid,
       .metaDelete guid, .blobDelete guid] ∧
    (f.deleteAvatarMetadataFails = false →
      lookupAssoc (addAvatar f now username guid filename contentType size st).store.metas
        guid = none) ∧
    (f.deleteAvatarFails = false →
      guid ∉ (addAvatar f now username guid filename contentType size st).store.blobs) := by
  refine ⟨?_, ?_, ?_, ?_⟩ <;>
    simp [addAvatar, r2UploadAvatar, redisSetAvatarMetadata, redisSetGUIDByUsername,
      h1, h2, h3]
  · intro hd
    cases hb : f.deleteAvatarFails <;>
      simp [redisDeleteAvatarMetadata, r2DeleteAvatar, hd, hb,
        lookupAssoc_eraseKey_self]
  · intro hb
    cases hd : f.deleteAvatarMetadataFails <;>
      simp [redisDeleteAvatarMetadata, r2DeleteAvatar, hd, hb, List.mem_filter]

/-- C3 witness: concrete run with only the mapping write failing. -/
theorem addAvatar_mapFail_compensates_witness :
    (addAvatar { noFaults with setGUIDByUsernameFails := true }
        0 "alice" "g1" "pic.jpg" "image/jpeg" 10 emptyStore).result =
      .error .mappingSaveFailed ∧
    lookupAssoc (addAvatar { noFaults with setGUIDByUsernameFails := true }
        0 "alice" "g1" "pic.jpg" "image/jpeg" 10 emptyStore).store.metas "g1" = none ∧
    "g1" ∉ (addAvatar { noFaults with setGUIDByUsernameFails := true }
        0 "alice" "g1" "pic.jpg" "image/jpeg" 10 emptyStore).store.blobs :=
  ⟨(addAvatar_mapFail_compensates { noFaults with setGUIDByUsernameFails := true }
      0 "alice" "g1" "pic.jpg" "image/jpeg" 10 emptyStore rfl rfl rfl).1,
   (addAvatar_mapFail_compensates { noFaults with setGUIDByUsernameFails := true }
      0 "alice" "g1" "pic.jpg" "image/jpeg" 10 emptyStore rfl rfl rfl).2.2.1 rfl,
   (addAvatar_mapFail_compensates { noFaults with setGUIDByUsernameFails := true }
      0 "alice" "g1" "pic.jpg" "image/jpeg" 10 emptyStore rfl rfl rfl).2.2.2 rfl⟩

/-- C4 counterexample: with the metadata write and the compensating blob
delete both failing, AddAvatar issues the compensating delete (one blobDelete
event), the delete fails (the blob is still present), yet the log is empty:
the failed compensating delete is silently discarded, not logged or
reported, contrary to the claim. -/
theorem addAvatar_compFail_not_logged_cex :
    (addAvatar { noFaults with setAvatarMetadataFails := true, deleteAvatarFails := true }
        0 "alice" "g1" "pic.jpg" "image/jpeg" 10 emptyStore).result =
      .error .metadataSaveFailed ∧
    (addAvatar { noFaults with setAvatarMetadataFails := true, deleteAvatarFails := true }
        0 "alice" "g1" "pic.jpg" "image/jpeg" 10 emptyStore).events =
      [.blobWrite "g1", .metaWrite "g1", .blobDelete "g1"] ∧
    "g1" ∈ (addAvatar { noFaults with setAvatarMetadataFails := true, deleteAvatarFails := true }
        0 "alice" "g1" "pic.jpg" "image/jpeg" 10 emptyStore).store.blobs ∧
    (addAvatar { noFaults with setAvatarMetadataFails := true, deleteAvatarFails := true }
        0 "alice" "g1" "pic.jpg" "image/jpeg" 10 emptyStore).logs = [] := by
  refine ⟨rfl, rfl, ?_, rfl⟩
  simp [addAvatar, noFaults, r2UploadAvatar, redisSetAvatarMetadata, r2DeleteAvatar,
    emptyStore]

/-- C4 (amended): whenever a compensating delete is triggered by a failed
metadata or mapping write, AddAvatar returns the original write failure even
when the compensating delete itself fails, and attempts each compensating
delete exactly once, never retrying; the error of the compensating delete itself is
discarded without being logged or reported. -/
theorem addAvatar_compensation_policy (f : Faults) (now : Nat)
    (username guid filename contentType : String) (size : Int) (st : Store) :
    (f.uploadAvatarFails = false → f.setAvatarMetadataFails = true →
      (addAvatar f now username guid filename contentType size st).result =
        .error .metadataSaveFailed ∧
      (addAvatar f now username guid filename contentType size st).events =
        [.blobWrite guid, .metaWrite guid, .blobDelete guid] ∧
      (addAvatar f now username guid filename contentType size st).logs = []) ∧
    (f.uploadAvatarFails = false → f.setAvatarMetadataFails = false →
      f.setGUIDByUsernameFails = true →
      (addAvatar f now username guid filename contentType size st).result =
        .error .mappingSaveFailed ∧
      (addAvatar f now username guid filename contentType size st).events =
        [.blobWrite guid, .metaWrite guid, .mapWrite username guid,
         .metaDelete guid, .blobDelete guid] ∧
      (addAvatar f now username guid filename contentType size st).logs = []) := by
  constructor
  · intro h1 h2
    refine ⟨?_, ?_, ?_⟩ <;>
      simp [addAvatar, r2UploadAvatar, redisSetAvatarMetadata, h1, h2]
  · intro h1 h2 h3
    refine ⟨?_, ?_, ?_⟩ <;>
      simp [addAvatar, r2UploadAvatar, redisSetAvatarMetadata, redisSetGUIDByUsername,
        h1, h2, h3]

/-- C4 witness: with the mapping write and both compensating deletes failing,
the original mapping-write error is still the one returned, and the log stays
empty. -/
theorem addAvatar_compensation_policy_witness :
    (addAvatar { noFaults with
        setGUIDByUsernameFails := true,
        deleteAvatarFails := true,
        deleteAvatarMetadataFails := true }
        0 "alice" "g1" "pic.jpg" "image/jpeg" 10 emptyStore).result =
      .error .mappingSaveFailed ∧
    (addAvatar { noFaults with
        setGUIDByUsernameFails := true,
        deleteAvatarFails := true,
        deleteAvatarMetadataFails := true }
        0 "alice" "g1" "pic.jpg" "image/jpeg" 10 emptyStore).logs = [] :=
  ⟨((addAvatar_compensation_policy { noFaults with
        setGUIDByUsernameFails := true,
        deleteAvatarFails := true,
        deleteAvatarMetadataFails := true }
      0 "alice" "g1" "pic.jpg" "image/jpeg" 10 emptyStore).2 rfl rfl rfl).1,
   ((addAvatar_compensation_policy { noFaults with
        setGUIDByUsernameFails := true,
        deleteAvatarFails := true,
        deleteAvatarMetadataFails := true }
      0 "alice" "g1" "pic.jpg" "image/jpeg" 10 emptyStore).2 rfl rfl rfl).2.2⟩

/-- C5: DeleteMyAvatar with an existing mapping whose blob deletion fails
returns an error and removes nothing: the store is unchanged and the mapping
still resolves to the original id. -/
theorem deleteMyAvatar_blobFail_preserves (f : Faults) (username guid : String)
    (st : Store)
    (h1 : f.getGUIDByUsernameFails username = false)
    (h2 : lookupAssoc st.mapping username = some guid)
    (h3 : f.deleteAvatarFails = true) :
    (deleteMyAvatar f username st).result = .error .blobDeleteFailed ∧
    (deleteMyAvatar f username st).store = st ∧
    lookupAssoc (deleteMyAvatar f username st).store.mapping username = some guid := by
  have hg : redisGetGUIDByUsername f username st = .ok guid := by
    simp [redisGetGUIDByUsername, h1, h2]
  refine ⟨?_, ?_, ?_⟩ <;> simp [deleteMyAvatar, hg, r2DeleteAvatar, h3, h2]

/-- C5 witness: concrete failing blob delete leaves the mapping resolving to
the original id. -/
theorem deleteMyAvatar_blobFail_preserves_witness :
    (deleteMyAvatar { noFaults with deleteAvatarFails := true } "alice"
        { blobs := ["g1"], metas := [], mapping := [("alice", "g1")] }).result =
      .error .blobDeleteFailed ∧
    lookupAssoc (deleteMyAvatar { noFaults with deleteAvatarFails := true } "alice"
        { blobs := ["g1"], metas := [], mapping := [("alice", "g1")] }).store.mapping
      "alice" = some "g1" :=
  ⟨(deleteMyAvatar_blobFail_preserves { noFaults with deleteAvatarFails := true }
      "alice" "g1" { blobs := ["g1"], metas := [], mapping := [("alice", "g1")] }
      rfl rfl rfl).1,
   (deleteMyAvatar_blobFail_preserves { noFaults with deleteAvatarFails := true }
      "alice" "g1" { blobs := ["g1"], metas := [], mapping := [("alice", "g1")] }
      rfl rfl rfl).2.2⟩

/-- C6: once the blob deletion succeeded, DeleteMyAvatar reports success even
if the metadata-record delete or the mapping delete fails, and each such
residual failure is reported as a warning line in the log. -/
theorem deleteMyAvatar_residual_nonfatal (f : Faults) (username guid : String)
    (st : Store)
    (h1 : f.getGUIDByUsernameFails username = false)
    (h2 : lookupAssoc st.mapping username = some guid)
    (h3 : f.deleteAvatarFails = false) :
    (deleteMyAvatar f username st).result = .ok () ∧
    (f.deleteAvatarMetadataFails = true →
      "warning: failed to delete metadata" ∈ (deleteMyAvatar f username st).logs) ∧
    (f.deleteUsernameMappingFails = true →
      "warning: failed to delete username mapping" ∈ (deleteMyAvatar f username st).logs) := by
  have hg : redisGetGUIDByUsername f username st = .ok guid := by
    simp [redisGetGUIDByUsername, h1, h2]
  refine ⟨?_, ?_, ?_⟩
  · simp [deleteMyAvatar, hg, r2DeleteAvatar, h3]
  · intro hd
    simp [deleteMyAvatar, hg, r2DeleteAvatar, h3, redisDeleteAvatarMetadata, hd]
  · intro hu
    cases hd : f.deleteAvatarMetadataFails <;>
      simp [deleteMyAvatar, hg, r2DeleteAvatar, h3, redisDeleteAvatarMetadata,
        redisDeleteUsernameMapping, hd, hu]

/-- C6 witness: with both residual deletes failing, the operation still
succeeds and both warnings are logged. -/
theorem deleteMyAvatar_residual_nonfatal_witness :
    (deleteMyAvatar { noFaults with
        deleteAvatarMetadataFails := true,
        deleteUsernameMappingFails := true } "alice"
        { blobs := ["g1"], metas := [], mapping := [("alice", "g1")] }).result = .ok () ∧
    "warning: failed to delete metadata" ∈
      (deleteMyAvatar { noFaults with
        deleteAvatarMetadataFails := true,
        deleteUsernameMappingFails := true } "alice"
        { blobs := ["g1"], metas := [], mapping := [("alice", "g1")] }).logs ∧
    "warning: failed to delete username mapping" ∈
      (deleteMyAvatar { noFaults with
        deleteAvatarMetadataFails := true,
        deleteUsernameMappingFails := true } "alice"
        { blobs := ["g1"], metas := [], mapping := [("alice", "g1")] }).logs :=
  ⟨(deleteMyAvatar_residual_nonfatal { noFaults with
      deleteAvatarMetadataFails := true,
      deleteUsernameMappingFails := true } "alice" "g1"
      { blobs := ["g1"], metas := [], mapping := [("alice", "g1")] } rfl rfl rfl).1,
   (deleteMyAvatar_residual_nonfatal { noFaults with
      deleteAvatarMetadataFails := true,
      deleteUsernameMappingFails := true } "alice" "g1"
      { blobs := ["g1"], metas := [], mapping := [("alice", "g1")] } rfl rfl rfl).2.1 rfl,
   (deleteMyAvatar_residual_nonfatal { noFaults with
      deleteAvatarMetadataFails := true,
      deleteUsernameMappingFails := true } "alice" "g1"
      { blobs := ["g1"], metas := [], mapping := [("alice", "g1")] } rfl rfl rfl).2.2 rfl⟩

/-- C7 counterexample: the mapping for "alice" exists, the mapping-store
lookup itself fails (not an absent mapping), yet DeleteMyAvatar surfaces the
not-found condition carrying the owner name ("avatar not found for username:
alice") instead of a distinct non-NotFound error: the claimed "exactly when
no mapping exists" and "distinct error for store failures" both fail. -/
theorem deleteMyAvatar_lookupFailure_cex :
    lookupAssoc (Store.mapping
      { blobs := ["g1"], metas := [], mapping := [("alice", "g1")] }) "alice" =
      some "g1" ∧
    (deleteMyAvatar { noFaults with getGUIDByUsernameFails := fun u => u == "alice" }
        "alice" { blobs := ["g1"], metas := [], mapping := [("alice", "g1")] }).result =
      .error (.avatarNotFound "alice") :=
  ⟨rfl, rfl⟩

/-- C7 (amended): GetAvatarByUsername fails with the not-found condition
carrying the owner name exactly when the lookup does not fail and no mapping
exists, and surfaces a mapping-store failure as the distinct guidLookupFailed
error; DeleteMyAvatar, by contrast, surfaces every mapping-lookup failure —
absent mapping or store failure alike — as the not-found condition carrying
the owner name. -/
theorem lookup_notFound_behavior (f : Faults) (u : String) (st : Store) :
    (getAvatarByUsername f u st = .error (.usernameNotFound u) ↔
      (f.getGUIDByUsernameFails u = false ∧ lookupAssoc st.mapping u = none)) ∧
    (f.getGUIDByUsernameFails u = true →
      getAvatarByUsername f u st = .error .guidLookupFailed) ∧
    ((deleteMyAvatar f u st).result = .error (.avatarNotFound u) ↔
      (f.getGUIDByUsernameFails u = true ∨ lookupAssoc st.mapping u = none)) := by
  cases hf : f.getGUIDByUsernameFails u
  · cases hm : lookupAssoc st.mapping u with
    | none =>
      refine ⟨?_, ?_, ?_⟩ <;>
        simp [getAvatarByUsername, deleteMyAvatar, redisGetGUIDByUsername, hf, hm]
    | some guid =>
      cases hp : f.presignFails guid <;> cases hb : f.deleteAvatarFails <;>
        refine ⟨?_, ?_, ?_⟩ <;>
        simp [getAvatarByUsername, deleteMyAvatar, redisGetGUIDByUsername,
          r2GetAvatarPresignedURL, r2DeleteAvatar, hf, hm, hp, hb]
  · refine ⟨?_, ?_, ?_⟩ <;>
      simp [getAvatarByUsername, deleteMyAvatar, redisGetGUIDByUsername, hf]

/-- C7 amended-claim witness: a failed lookup gives the distinct error on the
get path and the not-found condition on the delete path. -/
theorem lookup_notFound_behavior_witness :
    getAvatarByUsername { noFaults with getGUIDByUsernameFails := fun _ => true }
      "bob" emptyStore = .error .guidLookupFailed ∧
    (deleteMyAvatar noFaults "bob" emptyStore).result = .error (.avatarNotFound "bob") :=
  ⟨(lookup_notFound_behavior { noFaults with getGUIDByUsernameFails := fun _ => true }
      "bob" emptyStore).2.1 rfl,
   (lookup_notFound_behavior noFaults "bob" emptyStore).2.2.mpr (Or.inr rfl)⟩

/-- C9: the boundary handler rejects an empty usernames list with the 400
InvalidInput response; the result is a constant, independent of the fault
assignment and of the store state, so no coordinator or store call can have
influenced it. -/
theorem handlers_empty_batch_rejected (f : Faults) (st : Store) :
    handlersGetAvatarsByUsernames f st (some []) =
      .errorResp 400 "Usernames list cannot be empty" := rfl

/-- C8: GetAvatarsByUsernames returns without error for every owner list, and
the returned map has an entry for an owner exactly when that owner was
requested, its mapping lookup succeeded, and URL generation for the resolved
id succeeded (the entry being the presigned URL of that id); owners with no
mapping, a failed lookup, or a failed URL generation are silently omitted.
The right-hand side specEntryGetMany is the spec-side characterization. -/
theorem getAvatarsByUsernames_spec (f : Faults) (usernames : List String)
    (st : Store) :
    ∃ m, getAvatarsByUsernames f usernames st = .ok m ∧
      ∀ u, lookupAssoc m u = specEntryGetMany f usernames st u := by
  refine ⟨urlLoop f [] (guidsLoop f st [] usernames), rfl, ?_⟩
  intro u
  have hdet := guidsLoop_mem f st usernames []
    (by intro p hp; cases hp)
  rw [urlLoop_lookup f st _ [] u hdet]
  cases hf : f.getGUIDByUsernameFails u
  · cases hm : lookupAssoc st.mapping u with
    | none =>
      have hr : redisGetGUIDByUsername f u st = .error (.usernameNotFound u) := by
        simp [redisGetGUIDByUsername, hf, hm]
      rw [guidsLoop_lookup_error f st usernames [] u _ hr]
      simp [specEntryGetMany, lookupAssoc, hm]
    | some g =>
      have hr : redisGetGUIDByUsername f u st = .ok g := by
        simp [redisGetGUIDByUsername, hf, hm]
      rw [guidsLoop_lookup_ok f st usernames [] u g hr]
      by_cases hin : u ∈ usernames
      · cases hpg : f.presignFails g <;>
          simp [hin, specEntryGetMany, hf, hm, hpg, lookupAssoc]
      · simp [hin, specEntryGetMany, lookupAssoc]
  · have hr : redisGetGUIDByUsername f u st = .error .guidLookupFailed := by
      simp [redisGetGUIDByUsername, hf]
    rw [guidsLoop_lookup_error f st usernames [] u _ hr]
    simp [specEntryGetMany, lookupAssoc, hf]

end GainlyAvatars
